import Mathlib

/-!
Shallow embedding of the resilient price-acquisition / event / DI core of the
ciaociao-recibos-v5 repository, together with proofs settling the claims
C1..C10 about it.

Modelling conventions, used throughout:
* JavaScript `Date.now()` timestamps are `Nat` milliseconds, passed explicitly
  as a `now` parameter to every operation that reads the clock.
* `Map` objects are association lists with insert-at-head and first-match
  lookup, which reproduces `Map.set` overwrite semantics.
* A thrown JS exception is an `Except.error`; `async` suspension points are
  not modelled (the runtime is single threaded, awaits only reorder time,
  which is explicit).
* Object reference identity (needed for the DI singleton/transient claims) is
  modelled by an allocation counter: constructing a fresh object yields the
  current counter value and bumps it, so two objects are "referentially
  equal" iff their allocation numbers coincide.
-/

namespace Ciaociao

/-! ## CircuitBreaker (src/unnamed/part_009)

`CircuitBreakerState = 'closed' | 'open' | 'half-open'`; `open` is a Lean
keyword, so the middle constructor is named `opened`. -/

inductive CBState
  | closed
  | opened
  | halfOpen
deriving DecidableEq

structure CircuitBreakerConfig where
  failureThreshold : Nat
  resetTimeout : Nat
  monitoringPeriod : Nat
deriving DecidableEq

structure MonEntry where
  success : Bool
  timestamp : Nat
deriving DecidableEq

/-- Mutable fields of the `CircuitBreaker` class, with the field initializers
of the source as default values. -/
structure CircuitBreaker where
  config : CircuitBreakerConfig
  state : CBState := CBState.closed
  failureCount : Nat := 0
  successCount : Nat := 0
  totalRequests : Nat := 0
  lastFailureTime : Option Nat := none
  nextRetryTime : Option Nat := none
  monitoringWindow : List MonEntry := []
deriving DecidableEq

/-- `new CircuitBreaker(config)`. -/
def mkCircuitBreaker (config : CircuitBreakerConfig) : CircuitBreaker :=
  { config := config }

structure CircuitBreakerStats where
  state : CBState
  failureCount : Nat
  successCount : Nat
  totalRequests : Nat
  lastFailureTime : Option Nat
  nextRetryTime : Option Nat
deriving DecidableEq

/-- `getStats()`: read-only snapshot. -/
def CircuitBreaker.getStats (cb : CircuitBreaker) : CircuitBreakerStats :=
  { state := cb.state
    failureCount := cb.failureCount
    successCount := cb.successCount
    totalRequests := cb.totalRequests
    lastFailureTime := cb.lastFailureTime
    nextRetryTime := cb.nextRetryTime }

/-- `cleanupOldEntries()`: keep entries with `entry.timestamp > now - monitoringPeriod`
(`cutoff = new Date(Date.now() - monitoringPeriod)`; `Nat` truncated subtraction
agrees with the JS comparison for the nonnegative clock values involved). -/
def cleanupOldEntries (cfg : CircuitBreakerConfig) (now : Nat) (w : List MonEntry) :
    List MonEntry :=
  w.filter (fun e => decide (now - cfg.monitoringPeriod < e.timestamp))

/-- `addToMonitoringWindow(success)`: push `(success, new Date())` then prune. -/
def addToMonitoringWindow (cfg : CircuitBreakerConfig) (now : Nat) (success : Bool)
    (w : List MonEntry) : List MonEntry :=
  cleanupOldEntries cfg now (w ++ [⟨success, now⟩])

/-- `getFailureRate()`: prune, then `failures / monitoringWindow.length` (0 on an
empty window). The source computes the ratio in IEEE doubles; it is modelled
exactly in `ℚ`, which agrees on every comparison against `0.5` performed here. -/
def getFailureRate (cb : CircuitBreaker) (now : Nat) : ℚ :=
  let w := cleanupOldEntries cb.config now cb.monitoringWindow
  if w.length = 0 then 0
  else ((w.filter (fun e => !e.success)).length : ℚ) / (w.length : ℚ)

/-- `shouldOpenCircuit()`: failure count reached the threshold, or the rolling
failure rate is at least 0.5 over a window of at least 10 samples. The length
read in the source happens after `getFailureRate` pruned the window, so the
pruned length is used (pruning twice at the same `now` is the same as once). -/
def shouldOpenCircuit (cb : CircuitBreaker) (now : Nat) : Bool :=
  if cb.config.failureThreshold ≤ cb.failureCount then
    true
  else
    let w := cleanupOldEntries cb.config now cb.monitoringWindow
    decide ((1 : ℚ) / 2 ≤ getFailureRate cb now) && decide (10 ≤ w.length)

/-- `shouldAttemptReset()`: `!!nextRetryTime && new Date() >= nextRetryTime`. -/
def shouldAttemptReset (cb : CircuitBreaker) (now : Nat) : Bool :=
  match cb.nextRetryTime with
  | none => false
  | some t => decide (t ≤ now)

/-- First half of `onSuccess()`: the counter and window updates. -/
def recordSuccess (cb : CircuitBreaker) (now : Nat) : CircuitBreaker :=
  { cb with
    successCount := cb.successCount + 1
    monitoringWindow := addToMonitoringWindow cb.config now true cb.monitoringWindow }

/-- Second half of `onSuccess()`: a success while half-open closes the circuit. -/
def closeIfHalfOpen (cb : CircuitBreaker) : CircuitBreaker :=
  if cb.state = CBState.halfOpen then
    { cb with state := CBState.closed, failureCount := 0, nextRetryTime := none }
  else
    cb

/-- `onSuccess()`. -/
def onSuccess (cb : CircuitBreaker) (now : Nat) : CircuitBreaker :=
  closeIfHalfOpen (recordSuccess cb now)

/-- First half of `onFailure()`: the counter and window updates. -/
def recordFailure (cb : CircuitBreaker) (now : Nat) : CircuitBreaker :=
  { cb with
    failureCount := cb.failureCount + 1
    lastFailureTime := some now
    monitoringWindow := addToMonitoringWindow cb.config now false cb.monitoringWindow }

/-- Second half of `onFailure()`: open the circuit when `shouldOpenCircuit()`. -/
def openIfNeeded (cb : CircuitBreaker) (now : Nat) : CircuitBreaker :=
  if shouldOpenCircuit cb now then
    { cb with state := CBState.opened, nextRetryTime := some (now + cb.config.resetTimeout) }
  else
    cb

/-- `onFailure()`. -/
def onFailure (cb : CircuitBreaker) (now : Nat) : CircuitBreaker :=
  openIfNeeded (recordFailure cb now) now

/-- Outcome of `execute(fn)`: the value of `fn`, the rethrown error of `fn`, or
the `Circuit breaker is open - request rejected` error thrown without invoking
`fn`. -/
inductive ExecResult (α : Type)
  | ok (a : α)
  | fnErr
  | rejected
deriving DecidableEq

/-- Body of `execute` past the open-state gate: count the request, invoke `fn`
(its behaviour supplied as an `Except`), dispatch to `onSuccess`/`onFailure`. -/
def executeBody {α : Type} (cb : CircuitBreaker) (now : Nat) (fn : Except Unit α) :
    ExecResult α × CircuitBreaker :=
  let cb := { cb with totalRequests := cb.totalRequests + 1 }
  match fn with
  | Except.ok a => (ExecResult.ok a, onSuccess cb now)
  | Except.error _ => (ExecResult.fnErr, onFailure cb now)

/-- `execute(fn)`: the open-state gate, then the body. -/
def CircuitBreaker.execute {α : Type} (cb : CircuitBreaker) (now : Nat)
    (fn : Except Unit α) : ExecResult α × CircuitBreaker :=
  if cb.state = CBState.opened then
    if shouldAttemptReset cb now then
      executeBody { cb with state := CBState.halfOpen } now fn
    else
      (ExecResult.rejected, cb)
  else
    executeBody cb now fn

/-! ## CircuitBreakerFactory (src/unnamed/part_009) -/

structure CircuitBreakerFactory where
  instances : List (String × CircuitBreaker) := []
deriving DecidableEq

/-- The default value of `getInstance`'s `config` parameter. -/
def defaultFactoryConfig : CircuitBreakerConfig :=
  { failureThreshold := 5, resetTimeout := 60000, monitoringPeriod := 300000 }

/-- `getInstance(name, config?)`: reuse the breaker stored under `name`,
otherwise construct one from `config` (defaulted) and store it. Returns the
breaker together with the updated factory. -/
def getInstance (f : CircuitBreakerFactory) (name : String)
    (config : Option CircuitBreakerConfig) : CircuitBreaker × CircuitBreakerFactory :=
  let cfg := config.getD defaultFactoryConfig
  match f.instances.lookup name with
  | some b => (b, f)
  | none =>
      let b := mkCircuitBreaker cfg
      (b, { instances := (name, b) :: f.instances })

/-- One `execute` call whose inner function throws, keeping only the breaker. -/
def failStep (cb : CircuitBreaker) (t : Nat) : CircuitBreaker :=
  (CircuitBreaker.execute cb t (Except.error () : Except Unit Unit)).2

/-! ## DIContainer (src/src/core/infrastructure/di/Container.ts)

Tokens are `Nat`. Materialized instances are identified by allocation
numbers (`nextId` counter): `new descriptor.constructor(...)` and
`descriptor.factory(...)` both produce a fresh object, whose identity is the
counter value. The auto-register-on-`Injectable`-metadata branch of `resolve`
is not modelled: registrations are explicit, as the claims require. Scopes are
not modelled (no claim uses them); with no `currentScope` active the scoped
branches of the source are skipped, which is what the model does. The
ambient `design:paramtypes` metadata merged with the `@Inject` override list
(`injectTokens[i] || paramTypes[i]`) is modelled as the single declared list
`paramTypes`. -/

inductive Lifecycle
  | singleton
  | transient
  | scoped
deriving DecidableEq

/-- `ServiceDescriptor` (the `token` key is the association-list key, not
repeated inside). `instVal` is the `instance` field (`instance` is a Lean
keyword); `factory` and `ctor` (`constructor`) record whether the source
object carries those members, whose only modelled effect is allocating a
fresh object after resolving the dependencies. -/
structure ServiceDescriptor where
  lifecycle : Lifecycle := Lifecycle.transient
  instVal : Option Nat := none
  factory : Bool := false
  ctor : Bool := false
  dependencies : Option (List Nat) := none
  paramTypes : List Nat := []
deriving DecidableEq

structure DIContainer where
  services : List (Nat × ServiceDescriptor) := []
  singletons : List (Nat × Nat) := []
  nextId : Nat := 0
deriving DecidableEq

/-- `register(token, descriptor)`: `Map.set` upsert. -/
def register (c : DIContainer) (token : Nat) (d : ServiceDescriptor) : DIContainer :=
  { c with services := (token, d) :: c.services }

/-- `registerSingleton(token, factory?, constructor?)` with a constructor and
an explicit dependency list. -/
def registerSingleton (c : DIContainer) (token : Nat) (deps : List Nat) : DIContainer :=
  register c token
    { lifecycle := Lifecycle.singleton, ctor := true, dependencies := some deps }

/-- `registerTransient(token, factory?, constructor?)` with a constructor and
an explicit dependency list. -/
def registerTransient (c : DIContainer) (token : Nat) (deps : List Nat) : DIContainer :=
  register c token
    { lifecycle := Lifecycle.transient, ctor := true, dependencies := some deps }

/-- The dependency tokens `resolveDependencies` walks: the explicit
`descriptor.dependencies` list if present, else the constructor metadata. -/
def depsOf (d : ServiceDescriptor) : List Nat :=
  match d.dependencies with
  | some ds => ds
  | none => if d.ctor then d.paramTypes else []

inductive ResolveError
  | notRegistered (token : Nat)
  | noProvider (token : Nat)
  | outOfFuel
deriving DecidableEq

/-- The loop of `resolveDependencies`: resolve each dependency token in order
with the supplied resolver, threading the container state. -/
def resolveMany (step : DIContainer → Nat → Except ResolveError (Nat × DIContainer)) :
    DIContainer → List Nat → Except ResolveError (List Nat × DIContainer)
  | c, [] => Except.ok ([], c)
  | c, t :: ts =>
    match step c t with
    | Except.error e => Except.error e
    | Except.ok (v, c1) =>
      match resolveMany step c1 ts with
      | Except.error e => Except.error e
      | Except.ok (vs, c2) => Except.ok (v :: vs, c2)

/-- The creation part of `createInstance(descriptor)` past the caches, in
source order: the `instance` branch, then `factory` / `constructor` (resolving
the dependency tokens with `resolveDeps`, then allocating a fresh object),
then the `No factory, constructor, or instance provided` error; finally the
freshly created instance is stored in `singletons` when the lifecycle is
singleton. -/
def createFresh (resolveDeps : DIContainer → List Nat → Except ResolveError (List Nat × DIContainer))
    (c : DIContainer) (token : Nat) (d : ServiceDescriptor) :
    Except ResolveError (Nat × DIContainer) :=
  let created : Except ResolveError (Nat × DIContainer) :=
    match d.instVal with
    | some v => Except.ok (v, c)
    | none =>
      if d.factory || d.ctor then
        match resolveDeps c (depsOf d) with
        | Except.error e => Except.error e
        | Except.ok (_, c1) => Except.ok (c1.nextId, { c1 with nextId := c1.nextId + 1 })
      else
        Except.error (ResolveError.noProvider token)
  match created with
  | Except.error e => Except.error e
  | Except.ok (v, c1) =>
    if d.lifecycle = Lifecycle.singleton then
      Except.ok (v, { c1 with singletons := (token, v) :: c1.singletons })
    else
      Except.ok (v, c1)

/-- `createInstance(descriptor)`: the singleton cache hit, then `createFresh`.
(The scoped cache is skipped: no `currentScope` is active, see above.) -/
def createInstance (resolveDeps : DIContainer → List Nat → Except ResolveError (List Nat × DIContainer))
    (c : DIContainer) (token : Nat) (d : ServiceDescriptor) :
    Except ResolveError (Nat × DIContainer) :=
  match d.lifecycle, c.singletons.lookup token with
  | Lifecycle.singleton, some v => Except.ok (v, c)
  | _, _ => createFresh resolveDeps c token d

/-- `resolve(token)`, with a fuel bound on the recursion depth (the source
recursion is unbounded; `outOfFuel` marks divergence — fuel never changes a
successful result, it only bounds how deep the recursion may go): descriptor
lookup (`ServiceNotRegisteredError` when absent), then `createInstance` with
the recursive dependency resolution. -/
def resolveFuel : Nat → DIContainer → Nat → Except ResolveError (Nat × DIContainer)
  | 0, _, _ => Except.error ResolveError.outOfFuel
  | Nat.succ fuel, c, token =>
    match c.services.lookup token with
    | none => Except.error (ResolveError.notRegistered token)
    | some d =>
      createInstance (fun c1 ds => resolveMany (fun c2 t => resolveFuel fuel c2 t) c1 ds)
        c token d

/-- The two-token cyclic registration exhibiting the absence of cycle
detection: token 0 depends on token 1 and token 1 depends on token 0, both
transient constructor registrations. -/
def cyclicContainer : DIContainer :=
  registerTransient (registerTransient {} 0 [1]) 1 [0]

/-- Registrations for the lifecycle-identity witness: token 0 singleton,
token 1 transient, no dependencies. -/
def wContainer : DIContainer :=
  registerTransient (registerSingleton {} 0 []) 1 []

/-- `wContainer` after the singleton token 0 has been resolved once. -/
def wContainerS1 : DIContainer :=
  { wContainer with singletons := [(0, 0)], nextId := 1 }

/-- `wContainer` after the transient token 1 has been resolved once. -/
def wContainerT1 : DIContainer :=
  { wContainer with nextId := 1 }

/-- `wContainer` after the transient token 1 has been resolved twice. -/
def wContainerT2 : DIContainer :=
  { wContainer with nextId := 2 }



/-! ## EventBus (src/src/core/infrastructure/events/EventBus.ts)

Events are identified by `Nat`. Handler behaviour is an oracle
`beh : Nat → Nat → List Bool`: `beh e k` lists, for the `k`-th delivery of
event `e`, whether each subscribed handler's promise fulfills (`true`) or
rejects (`false`); an event type with no subscriptions is the empty list
(`publishSync` then returns early, which coincides with delivering to zero
handlers). The retry delay (`retryDelay * retryCount`) only suspends and is
not part of the tracked state. -/

structure QItem where
  event : Nat
  retryCount : Nat
deriving DecidableEq

/-- The queue (`eventQueue`) plus the observable delivery order: `trace`
records each delivery attempt `publishSync` makes, in order. -/
structure EBState where
  queue : List QItem
  trace : List Nat
deriving DecidableEq

/-- `options.maxRetries` default. -/
def ebMaxRetries : Nat := 3

/-- `executeHandler(handler, event)`: runs the handler; a throw is reported to
`errorHandler` and rethrown, so the handler's promise rejects. -/
def executeHandler (ok : Bool) : Except Unit Unit :=
  if ok then Except.ok () else Except.error ()

/-- `Promise.allSettled(promises)`: waits for every promise and records each
outcome; the promise it returns always fulfills (rejections are converted
into settled results, never propagated). -/
def promiseAllSettled (rs : List (Except Unit Unit)) : Except Unit (List Bool) :=
  Except.ok (rs.map fun r => match r with | Except.ok _ => true | Except.error _ => false)

/-- `publishSync(event)`: map `executeHandler` over the subscriptions and
await `Promise.allSettled`. -/
def publishSync (beh : Nat → Nat → List Bool) (attempt : Nat) (e : Nat) :
    Except Unit Unit :=
  match promiseAllSettled ((beh e attempt).map executeHandler) with
  | Except.ok _ => Except.ok ()
  | Except.error err => Except.error err

/-- How many times event `e` has already been delivered (selects which entry
of the behaviour oracle applies). -/
def deliveryCount (tr : List Nat) (e : Nat) : Nat :=
  (tr.filter (fun x => x == e)).length

/-- `handleEventError(error, item)`: under `maxRetries`, re-enqueue at the
front (`unshift`) with `retryCount + 1`; otherwise invoke `errorHandler` and
drop the event. -/
def handleEventError (item : QItem) (s : EBState) : EBState :=
  if item.retryCount < ebMaxRetries then
    { s with queue := { event := item.event, retryCount := item.retryCount + 1 } :: s.queue }
  else
    s

/-- `processQueue()`: `shift` the head item, `await publishSync(item.event)`
(recorded in the trace), and route a thrown error to `handleEventError`.
Fuel bounds the number of loop iterations. -/
def processQueue (beh : Nat → Nat → List Bool) : Nat → EBState → EBState
  | 0, s => s
  | Nat.succ fuel, s =>
    match s.queue with
    | [] => s
    | item :: rest =>
      let attempt := deliveryCount s.trace item.event
      let s1 : EBState := { queue := rest, trace := s.trace ++ [item.event] }
      match publishSync beh attempt item.event with
      | Except.ok _ => processQueue beh fuel s1
      | Except.error _ => processQueue beh fuel (handleEventError item s1)

/-- The behaviour of the claimed retry scenario: event 0 (A) has one handler
that throws on A's first delivery and succeeds afterwards; event 1 (B) has
one handler that always succeeds. -/
def behC1 : Nat → Nat → List Bool :=
  fun e k => if e == 0 && k == 0 then [false] else [true]

/-! ## BaseApiClient (src/src/core/infrastructure/api/BaseApiClient.ts)

The HTTP layer is an oracle `op : Nat → Except JsErrorView RespInfo` giving,
per attempt index, the settled outcome of the underlying axios call — a
response, or the raw axios error exactly as the response interceptor
receives it. -/

/-- The fields of `error.response` that `transformError` and `retryCondition`
read (`data?.message`, `data?.code`, `status`, `statusText`); the `data`
payload of a success is left abstract. -/
structure RespInfo where
  status : Nat
  statusText : String
  dataMessage : Option String
  dataCode : Option String
deriving DecidableEq

/-- A JS error object as the source inspects it: `error.response`,
`error.request` (truthiness only), `error.code`, `error.message`. -/
structure JsErrorView where
  response : Option RespInfo
  request : Bool
  code : Option String
  message : String
deriving DecidableEq

/-- The normalized `ApiError` shape `{message, status?, code?, details?}`
(`details` carries no behaviour and is omitted). -/
structure ApiError where
  message : String
  status : Option Nat
  code : Option String
deriving DecidableEq

/-- JS `a || b` for strings: the empty string is falsy. -/
def jsOrS (a : Option String) (b : String) : String :=
  match a with
  | some st => if st = "" then b else st
  | none => b

/-- How an `ApiError` object looks when re-inspected as a JS error: it has no
`response` or `request` members — only `message` and `code`. -/
def ApiError.view (e : ApiError) : JsErrorView :=
  { response := none, request := false, code := e.code, message := e.message }

/-- `transformError(error)`. -/
def transformError (v : JsErrorView) : ApiError :=
  match v.response with
  | some r =>
    { message := jsOrS r.dataMessage (jsOrS (some r.statusText) "Request failed")
      status := some r.status
      code := r.dataCode }
  | none =>
    if v.request then
      { message := "Network error - no response received", status := none
        code := some "NETWORK_ERROR" }
    else
      { message := jsOrS (some v.message) "Unknown error occurred", status := none
        code := some "UNKNOWN_ERROR" }

/-- The default `retryCondition`:
`!error.response || (500 <= status < 600) || error.code === 'ECONNABORTED'`. -/
def retryCondition (v : JsErrorView) : Bool :=
  v.response.isNone
  || (match v.response with
      | some r => decide (500 ≤ r.status) && decide (r.status < 600)
      | none => false)
  || decide (v.code = some "ECONNABORTED")

/-- The attempt loop of `executeWithRetry` (`left` = attempts still allowed
after the current one, so `attempt = retries - left`). The response
interceptor rejects with `transformError(raw)`; that `ApiError` is what the
`catch` binds and what `retryCondition` and the final
`throw this.transformError(lastError)` see — via `ApiError.view`, since they
read it as a JS object. Returns the surfaced result and how many times the
operation ran. -/
def executeWithRetryGo (op : Nat → Except JsErrorView RespInfo) :
    Nat → Nat → Except ApiError RespInfo × Nat
  | attempt, 0 =>
    match op attempt with
    | Except.ok resp => (Except.ok resp, attempt + 1)
    | Except.error raw =>
      (Except.error (transformError (transformError raw).view), attempt + 1)
  | attempt, Nat.succ leftN =>
    match op attempt with
    | Except.ok resp => (Except.ok resp, attempt + 1)
    | Except.error raw =>
      if retryCondition (transformError raw).view then
        executeWithRetryGo op (attempt + 1) leftN
      else
        (Except.error (transformError (transformError raw).view), attempt + 1)

/-- `executeWithRetry(operation)`: attempts `0 .. retries` inclusive. -/
def executeWithRetry (op : Nat → Except JsErrorView RespInfo) (retries : Nat) :
    Except ApiError RespInfo × Nat :=
  executeWithRetryGo op 0 retries

/-- `config.retries || 3`. -/
def defaultRetries : Nat := 3

/-- An operation that always fails with HTTP 400 Bad Request. -/
def op400 : Nat → Except JsErrorView RespInfo := fun _ =>
  Except.error
    { response := some
        { status := 400, statusText := "Bad Request", dataMessage := none, dataCode := none }
      request := true
      code := none
      message := "Request failed with status code 400" }

/-! ## MetalPriceApiClient (src/src/core/infrastructure/api/MetalPriceApiClient.ts)

`fetchMetalPrice` (HTTP + `transformResponse`) is the model boundary: its
outcome for the call at hand is the `FetchOutcome` oracle argument — a price,
`null` (API does not carry the metal), or a throw. Numeric prices are `ℚ`.
The rate-limit delay of `enforceRateLimit` suspends only (time is an explicit
parameter); its `lastRequestTime` bookkeeping is kept. -/

/-- `metal.toLowerCase()`, modelled character-wise (the library
`String.toLower` is equivalent but does not evaluate inside the kernel). -/
def toLowerCase (s : String) : String :=
  String.mk (s.data.map Char.toLower)

structure MetalPrice where
  metal : String
  pricePerOunce : ℚ
  pricePerGram : ℚ
  currency : String
  lastUpdated : Nat
deriving DecidableEq

/-- `cacheTimeout = 60 * 60 * 1000` (1 hour), both price clients. -/
def cacheTimeout : Nat := 60 * 60 * 1000

/-- The breaker configuration the metal client requests from the factory. -/
def mpConfig : CircuitBreakerConfig :=
  { failureThreshold := 3, resetTimeout := 120000, monitoringPeriod := 600000 }

structure MetalPriceApiClient where
  cache : List (String × MetalPrice × Nat) := []
  breaker : CircuitBreaker := mkCircuitBreaker mpConfig
  lastRequestTime : Nat := 0
deriving DecidableEq

/-- A freshly constructed client. -/
def mpInit : MetalPriceApiClient := {}

/-- `getCachedPrice(metal, includeExpired = false)`. -/
def getCachedPrice (cl : MetalPriceApiClient) (metal : String) (now : Nat)
    (includeExpired : Bool) : Option MetalPrice :=
  match cl.cache.lookup metal with
  | none => none
  | some (data, timestamp) =>
    let isExpired := decide (cacheTimeout < now - timestamp)
    if isExpired && !includeExpired then none else some data

/-- `cachePrice(metal, price)`. -/
def cachePrice (cl : MetalPriceApiClient) (metal : String) (price : MetalPrice)
    (now : Nat) : MetalPriceApiClient :=
  { cl with cache := (metal, price, now) :: cl.cache }

/-- Outcome of one inner fetch: a value (possibly `null`), or a throw. -/
inductive FetchOutcome (α : Type)
  | ok (p : Option α)
  | thrown
deriving DecidableEq

/-- The fetch outcome as the `Except` the circuit breaker's `fn` produces. -/
def fetchExc {α : Type} : FetchOutcome α → Except Unit (Option α)
  | FetchOutcome.ok p => Except.ok p
  | FetchOutcome.thrown => Except.error ()

/-- Result of `getCurrentPrice`: the returned price, the client state after
the call, and whether an underlying HTTP call was issued. -/
structure GetPriceResult where
  price : Option MetalPrice
  client : MetalPriceApiClient
  httpCalled : Bool
deriving DecidableEq

/-- `getCurrentPrice(metal)`: normalize, fresh-cache check (hit returns
immediately — no rate limit, no breaker), `enforceRateLimit`, then the fetch
through the circuit breaker (caching a non-null price); the `catch` falls
back to the stale cache (`includeExpired = true`) or `null`. The function is
total: no path throws. -/
def getCurrentPrice (cl : MetalPriceApiClient) (metal : String) (now : Nat)
    (fetch : FetchOutcome MetalPrice) : GetPriceResult :=
  let normalizedMetal := toLowerCase metal
  match getCachedPrice cl normalizedMetal now false with
  | some cached => { price := some cached, client := cl, httpCalled := false }
  | none =>
    let cl := { cl with lastRequestTime := now }
    match CircuitBreaker.execute cl.breaker now (fetchExc fetch) with
    | (ExecResult.ok p, br) =>
      let cl := { cl with breaker := br }
      let cl :=
        match p with
        | some price => cachePrice cl normalizedMetal price now
        | none => cl
      { price := p, client := cl, httpCalled := true }
    | (ExecResult.fnErr, br) =>
      { price := getCachedPrice { cl with breaker := br } normalizedMetal now true
        client := { cl with breaker := br }
        httpCalled := true }
    | (ExecResult.rejected, br) =>
      { price := getCachedPrice { cl with breaker := br } normalizedMetal now true
        client := { cl with breaker := br }
        httpCalled := false }

/-- A concrete stored price for the stale-fallback witness. -/
def mpWPrice : MetalPrice :=
  { metal := "gold", pricePerOunce := 2000, pricePerGram := 64, currency := "USD"
    lastUpdated := 0 }

/-- Client for the stale-fallback witness: one expired cache entry for gold
and an open breaker whose cooldown is far from over. -/
def mpWClient : MetalPriceApiClient :=
  { cache := [("gold", mpWPrice, 0)]
    breaker :=
      { config := mpConfig, state := CBState.opened, failureCount := 3, successCount := 0
        totalRequests := 3, lastFailureTime := some 5, nextRetryTime := some 100000000
        monitoringWindow := [] }
    lastRequestTime := 0 }

/-! ## ExchangeRateApiClient (src/src/core/infrastructure/api/ExchangeRateApiClient.ts)

Same modelling as the metal client: `fetchExchangeRate` is the oracle
boundary, rates are `ℚ`. -/

structure ExchangeRate where
  fromCurrency : String
  toCurrency : String
  rate : ℚ
  lastUpdated : Nat
  provider : String
deriving DecidableEq

/-- The breaker configuration the exchange-rate client requests. -/
def erConfig : CircuitBreakerConfig :=
  { failureThreshold := 3, resetTimeout := 300000, monitoringPeriod := 900000 }

structure ExchangeRateApiClient where
  cache : List (String × ExchangeRate × Nat) := []
  breaker : CircuitBreaker := mkCircuitBreaker erConfig
  baseCurrency : String := "USD"
deriving DecidableEq

/-- `getCachedRate(cacheKey, includeExpired = false)`. -/
def getCachedRate (cl : ExchangeRateApiClient) (cacheKey : String) (now : Nat)
    (includeExpired : Bool) : Option ExchangeRate :=
  match cl.cache.lookup cacheKey with
  | none => none
  | some (data, timestamp) =>
    let isExpired := decide (cacheTimeout < now - timestamp)
    if isExpired && !includeExpired then none else some data

/-- `cacheRate(cacheKey, rate)`. -/
def cacheRate (cl : ExchangeRateApiClient) (cacheKey : String) (rate : ExchangeRate)
    (now : Nat) : ExchangeRateApiClient :=
  { cl with cache := (cacheKey, rate, now) :: cl.cache }

/-- Result of `getExchangeRate`. -/
structure GetRateResult where
  rate : Option ExchangeRate
  client : ExchangeRateApiClient
  httpCalled : Bool
deriving DecidableEq

/-- `getExchangeRate(fromCurrency, toCurrency)`: fresh-cache check on the
`from-to` key, then the fetch through the circuit breaker (caching a non-null
rate); the `catch` falls back to the stale cache or `null`. -/
def getExchangeRate (cl : ExchangeRateApiClient) (fromCurrency toCurrency : String)
    (now : Nat) (fetch : FetchOutcome ExchangeRate) : GetRateResult :=
  let cacheKey := fromCurrency ++ "-" ++ toCurrency
  match getCachedRate cl cacheKey now false with
  | some cached => { rate := some cached, client := cl, httpCalled := false }
  | none =>
    match CircuitBreaker.execute cl.breaker now (fetchExc fetch) with
    | (ExecResult.ok r, br) =>
      let cl := { cl with breaker := br }
      let cl :=
        match r with
        | some rate => cacheRate cl cacheKey rate now
        | none => cl
      { rate := r, client := cl, httpCalled := true }
    | (ExecResult.fnErr, br) =>
      { rate := getCachedRate { cl with breaker := br } cacheKey now true
        client := { cl with breaker := br }
        httpCalled := true }
    | (ExecResult.rejected, br) =>
      { rate := getCachedRate { cl with breaker := br } cacheKey now true
        client := { cl with breaker := br }
        httpCalled := false }

/-- Result of `convertCurrency`: the `{convertedAmount, rate}` pair or `null`,
the client state after the call, and whether any HTTP call was issued. -/
structure ConvertResult where
  conversion : Option (ℚ × ExchangeRate)
  client : ExchangeRateApiClient
  httpCalled : Bool
deriving DecidableEq

/-- `convertCurrency(amount, fromCurrency, toCurrency)`: identical currencies
short-circuit to `{convertedAmount: amount, rate: 1, provider:
'same-currency'}` before any cache, breaker or network interaction;
otherwise `getExchangeRate`, `null` when no rate is obtainable. -/
def convertCurrency (cl : ExchangeRateApiClient) (amount : ℚ)
    (fromCurrency toCurrency : String) (now : Nat)
    (fetch : FetchOutcome ExchangeRate) : ConvertResult :=
  if fromCurrency = toCurrency then
    { conversion := some (amount,
        { fromCurrency := fromCurrency, toCurrency := toCurrency, rate := 1
          lastUpdated := now, provider := "same-currency" })
      client := cl
      httpCalled := false }
  else
    let r := getExchangeRate cl fromCurrency toCurrency now fetch
    match r.rate with
    | none => { conversion := none, client := r.client, httpCalled := r.httpCalled }
    | some rate =>
      { conversion := some (amount * rate.rate, rate)
        client := r.client
        httpCalled := r.httpCalled }


/-! ## Theorems -/

lemma length_cleanupOldEntries_le (cfg : CircuitBreakerConfig) (now : Nat)
    (w : List MonEntry) : (cleanupOldEntries cfg now w).length ≤ w.length :=
  List.length_filter_le _ _

lemma length_addToMonitoringWindow_le (cfg : CircuitBreakerConfig) (now : Nat)
    (s : Bool) (w : List MonEntry) :
    (addToMonitoringWindow cfg now s w).length ≤ w.length + 1 := by
  have h := length_cleanupOldEntries_le cfg now (w ++ [⟨s, now⟩])
  simpa [addToMonitoringWindow] using h

lemma shouldOpenCircuit_eq_false (cb : CircuitBreaker) (now : Nat)
    (h1 : cb.failureCount < cb.config.failureThreshold)
    (h2 : cb.monitoringWindow.length < 10) :
    shouldOpenCircuit cb now = false := by
  unfold shouldOpenCircuit
  rw [if_neg (by omega)]
  have hlen := length_cleanupOldEntries_le cb.config now cb.monitoringWindow
  have : ¬ (10 ≤ (cleanupOldEntries cb.config now cb.monitoringWindow).length) := by omega
  simp [this]

lemma shouldOpenCircuit_eq_true (cb : CircuitBreaker) (now : Nat)
    (h : cb.config.failureThreshold ≤ cb.failureCount) :
    shouldOpenCircuit cb now = true := by
  unfold shouldOpenCircuit
  rw [if_pos h]

lemma openIfNeeded_of_false (cb : CircuitBreaker) (now : Nat)
    (h : shouldOpenCircuit cb now = false) : openIfNeeded cb now = cb := by
  unfold openIfNeeded
  rw [h]
  simp

lemma openIfNeeded_of_true (cb : CircuitBreaker) (now : Nat)
    (h : shouldOpenCircuit cb now = true) :
    openIfNeeded cb now = { cb with
      state := CBState.opened
      nextRetryTime := some (now + cb.config.resetTimeout) } := by
  unfold openIfNeeded
  rw [h]
  simp

lemma failStep_eq_onFailure (cb : CircuitBreaker) (t : Nat)
    (hcl : cb.state = CBState.closed) :
    failStep cb t = onFailure { cb with totalRequests := cb.totalRequests + 1 } t := by
  unfold failStep CircuitBreaker.execute executeBody
  rw [if_neg (by simp [hcl])]

lemma failStep_count (cb : CircuitBreaker) (t : Nat)
    (hcl : cb.state = CBState.closed)
    (hfc : cb.failureCount + 1 < cb.config.failureThreshold)
    (hlen : cb.monitoringWindow.length + 1 < 10) :
    failStep cb t = { cb with
      failureCount := cb.failureCount + 1
      totalRequests := cb.totalRequests + 1
      lastFailureTime := some t
      monitoringWindow := addToMonitoringWindow cb.config t false cb.monitoringWindow } := by
  rw [failStep_eq_onFailure cb t hcl]
  unfold onFailure
  have hso : shouldOpenCircuit
      (recordFailure { cb with totalRequests := cb.totalRequests + 1 } t) t = false := by
    have hw := length_addToMonitoringWindow_le cb.config t false cb.monitoringWindow
    apply shouldOpenCircuit_eq_false
    · simpa using hfc
    · simp only [recordFailure]
      omega
  rw [openIfNeeded_of_false _ _ hso]
  simp [recordFailure]

lemma failStep_opens (cb : CircuitBreaker) (t : Nat)
    (hcl : cb.state = CBState.closed)
    (hfc : cb.config.failureThreshold ≤ cb.failureCount + 1) :
    failStep cb t = { cb with
      state := CBState.opened
      failureCount := cb.failureCount + 1
      totalRequests := cb.totalRequests + 1
      lastFailureTime := some t
      nextRetryTime := some (t + cb.config.resetTimeout)
      monitoringWindow := addToMonitoringWindow cb.config t false cb.monitoringWindow } := by
  rw [failStep_eq_onFailure cb t hcl]
  unfold onFailure
  have hso : shouldOpenCircuit
      (recordFailure { cb with totalRequests := cb.totalRequests + 1 } t) t = true := by
    apply shouldOpenCircuit_eq_true
    simpa using hfc
  rw [openIfNeeded_of_true _ _ hso]
  simp [recordFailure]

lemma execute_rejected {α : Type} (cb : CircuitBreaker) (now : Nat) (fn : Except Unit α)
    (hSt : cb.state = CBState.opened) (hna : shouldAttemptReset cb now = false) :
    CircuitBreaker.execute cb now fn = ((ExecResult.rejected : ExecResult α), cb) := by
  unfold CircuitBreaker.execute
  rw [if_pos (by simp [hSt]), if_neg (by simp [hna])]

/-- Claim C4: a breaker with `failureThreshold = 3`, after three consecutive
`execute` calls whose inner function throws, reports `getStats().state = open`
with `nextRetryTime = now + resetTimeout` (`now` the time of the third call);
any further `execute` call made before `resetTimeout` has elapsed is rejected
with the circuit-open error, without invoking the inner function (the outcome
is independent of `fn4`) and with the breaker — in particular `failureCount`,
`successCount` and `totalRequests` — left unchanged. -/
theorem circuitBreaker_threshold_opens (cfg : CircuitBreakerConfig)
    (t1 t2 t3 t4 : Nat) (fn4 : Except Unit Unit)
    (hth : cfg.failureThreshold = 3) (h4 : t4 < t3 + cfg.resetTimeout) :
    (failStep (failStep (failStep (mkCircuitBreaker cfg) t1) t2) t3).getStats.state
        = CBState.opened
    ∧ (failStep (failStep (failStep (mkCircuitBreaker cfg) t1) t2) t3).getStats.nextRetryTime
        = some (t3 + cfg.resetTimeout)
    ∧ CircuitBreaker.execute (failStep (failStep (failStep (mkCircuitBreaker cfg) t1) t2) t3)
          t4 fn4
        = (ExecResult.rejected,
           failStep (failStep (failStep (mkCircuitBreaker cfg) t1) t2) t3) := by
  have h1 : failStep (mkCircuitBreaker cfg) t1 =
      (⟨cfg, CBState.closed, 1, 0, 1, some t1, none,
        addToMonitoringWindow cfg t1 false []⟩ : CircuitBreaker) := by
    rw [failStep_count (mkCircuitBreaker cfg) t1 rfl
      (by simp [mkCircuitBreaker]; omega) (by simp [mkCircuitBreaker])]
    rfl
  have h2 : failStep (⟨cfg, CBState.closed, 1, 0, 1, some t1, none,
        addToMonitoringWindow cfg t1 false []⟩ : CircuitBreaker) t2 =
      (⟨cfg, CBState.closed, 2, 0, 2, some t2, none,
        addToMonitoringWindow cfg t2 false (addToMonitoringWindow cfg t1 false [])⟩ :
        CircuitBreaker) := by
    rw [failStep_count _ t2 rfl (by simp; omega)
      (by have := length_addToMonitoringWindow_le cfg t1 false []
          simp at this ⊢
          omega)]
  have h3 : failStep (⟨cfg, CBState.closed, 2, 0, 2, some t2, none,
        addToMonitoringWindow cfg t2 false (addToMonitoringWindow cfg t1 false [])⟩ :
        CircuitBreaker) t3 =
      (⟨cfg, CBState.opened, 3, 0, 3, some t3, some (t3 + cfg.resetTimeout),
        addToMonitoringWindow cfg t3 false
          (addToMonitoringWindow cfg t2 false (addToMonitoringWindow cfg t1 false []))⟩ :
        CircuitBreaker) := by
    rw [failStep_opens _ t3 rfl (by simp; omega)]
  rw [h1, h2, h3]
  refine ⟨rfl, rfl, ?_⟩
  apply execute_rejected _ t4 fn4 rfl
  simp [shouldAttemptReset]
  omega

/-- Closed witness for `circuitBreaker_threshold_opens`. -/
theorem circuitBreaker_threshold_opens_witness :
    (3 : Nat) = 3 ∧ (150 : Nat) < 100 + 120
    ∧ ((failStep (failStep (failStep (mkCircuitBreaker ⟨3, 120, 600⟩) 10) 50) 100).getStats.state
          = CBState.opened
      ∧ (failStep (failStep (failStep (mkCircuitBreaker ⟨3, 120, 600⟩) 10) 50) 100).getStats.nextRetryTime
          = some (100 + 120)
      ∧ CircuitBreaker.execute
            (failStep (failStep (failStep (mkCircuitBreaker ⟨3, 120, 600⟩) 10) 50) 100) 150
            (Except.error () : Except Unit Unit)
          = (ExecResult.rejected,
             failStep (failStep (failStep (mkCircuitBreaker ⟨3, 120, 600⟩) 10) 50) 100)) :=
  ⟨rfl, by decide,
    circuitBreaker_threshold_opens ⟨3, 120, 600⟩ 10 50 100 150
      (Except.error () : Except Unit Unit) rfl (by decide)⟩

/-- Claim C5: an open breaker whose `resetTimeout` has elapsed
(`nextRetryTime = some T` with `T ≤ now`) lets the next `execute` call run
(the inner function runs: its value is returned and `totalRequests` grows),
and a succeeding inner function closes the circuit and resets `failureCount`
to 0. -/
theorem circuitBreaker_self_heal {α : Type} (cb : CircuitBreaker) (now T : Nat) (a : α)
    (hSt : cb.state = CBState.opened) (hRt : cb.nextRetryTime = some T) (hT : T ≤ now) :
    (CircuitBreaker.execute cb now (Except.ok a)).1 = ExecResult.ok a
    ∧ (CircuitBreaker.execute cb now (Except.ok a)).2.state = CBState.closed
    ∧ (CircuitBreaker.execute cb now (Except.ok a)).2.failureCount = 0
    ∧ (CircuitBreaker.execute cb now (Except.ok a)).2.totalRequests = cb.totalRequests + 1 := by
  unfold CircuitBreaker.execute
  rw [if_pos (by simp [hSt])]
  rw [if_pos (by simp [shouldAttemptReset, hRt, hT])]
  simp [executeBody, onSuccess, recordSuccess, closeIfHalfOpen]

/-- Closed witness for `circuitBreaker_self_heal`. -/
theorem circuitBreaker_self_heal_witness :
    (⟨⟨3, 120, 600⟩, CBState.opened, 3, 0, 3, some 100, some 220, []⟩ :
        CircuitBreaker).state = CBState.opened
    ∧ (⟨⟨3, 120, 600⟩, CBState.opened, 3, 0, 3, some 100, some 220, []⟩ :
        CircuitBreaker).nextRetryTime = some 220
    ∧ (220 : Nat) ≤ 300
    ∧ ((CircuitBreaker.execute
          (⟨⟨3, 120, 600⟩, CBState.opened, 3, 0, 3, some 100, some 220, []⟩ :
            CircuitBreaker) 300 (Except.ok (5 : Nat))).1 = ExecResult.ok 5
      ∧ (CircuitBreaker.execute
          (⟨⟨3, 120, 600⟩, CBState.opened, 3, 0, 3, some 100, some 220, []⟩ :
            CircuitBreaker) 300 (Except.ok (5 : Nat))).2.state = CBState.closed
      ∧ (CircuitBreaker.execute
          (⟨⟨3, 120, 600⟩, CBState.opened, 3, 0, 3, some 100, some 220, []⟩ :
            CircuitBreaker) 300 (Except.ok (5 : Nat))).2.failureCount = 0
      ∧ (CircuitBreaker.execute
          (⟨⟨3, 120, 600⟩, CBState.opened, 3, 0, 3, some 100, some 220, []⟩ :
            CircuitBreaker) 300 (Except.ok (5 : Nat))).2.totalRequests
          = (⟨⟨3, 120, 600⟩, CBState.opened, 3, 0, 3, some 100, some 220, []⟩ :
              CircuitBreaker).totalRequests + 1) :=
  ⟨rfl, rfl, by decide,
    circuitBreaker_self_heal _ 300 220 5 rfl rfl (by decide)⟩

/-- Claim C8: `CircuitBreakerFactory.getInstance(n, c1)` followed by
`getInstance(n, c2)` returns the very breaker stored by the first call with
the factory unchanged — `c2` is ignored — and that breaker carries the
configuration of the first call (`c1`, or the documented default
`failureThreshold = 5, resetTimeout = 60000, monitoringPeriod = 300000` when
no config was supplied). -/
theorem factory_first_config_wins (f : CircuitBreakerFactory) (n : String)
    (c1 c2 : Option CircuitBreakerConfig) (h : f.instances.lookup n = none) :
    getInstance (getInstance f n c1).2 n c2
        = ((getInstance f n c1).1, (getInstance f n c1).2)
    ∧ (getInstance f n c1).1.config = c1.getD defaultFactoryConfig := by
  unfold getInstance
  rw [h]
  simp [List.lookup, mkCircuitBreaker]

/-- Closed witness for `factory_first_config_wins`, with the default
configuration exercised (`c1 = none`). -/
theorem factory_first_config_wins_witness :
    (CircuitBreakerFactory.mk []).instances.lookup "metal-prices" = none
    ∧ (getInstance (getInstance ⟨[]⟩ "metal-prices" none).2 "metal-prices"
          (some ⟨1, 2, 3⟩)
        = ((getInstance ⟨[]⟩ "metal-prices" none).1,
           (getInstance ⟨[]⟩ "metal-prices" none).2)
      ∧ (getInstance ⟨[]⟩ "metal-prices" none).1.config
          = Option.getD none defaultFactoryConfig) :=
  ⟨rfl, factory_first_config_wins ⟨[]⟩ "metal-prices" none (some ⟨1, 2, 3⟩) rfl⟩


/-! ### DIContainer lemmas and claims -/

lemma createFresh_pres (rd : DIContainer → List Nat → Except ResolveError (List Nat × DIContainer))
    (c : DIContainer) (token : Nat) (d : ServiceDescriptor) (v : Nat) (c₂ : DIContainer)
    (hrd : ∀ c₀ ds vs c₁, rd c₀ ds = Except.ok (vs, c₁) →
      c₁.services = c₀.services ∧ c₀.nextId ≤ c₁.nextId)
    (h : createFresh rd c token d = Except.ok (v, c₂)) :
    c₂.services = c.services ∧ c.nextId ≤ c₂.nextId := by
  cases hi : d.instVal with
  | some v0 =>
    simp only [createFresh, hi] at h
    split at h <;>
    · simp only [Except.ok.injEq, Prod.mk.injEq] at h
      obtain ⟨hv, hc⟩ := h
      subst hc
      simp
  | none =>
    simp only [createFresh, hi] at h
    cases hp : (d.factory || d.ctor) with
    | false => simp [hp] at h
    | true =>
      simp only [hp, if_true] at h
      cases hrdres : rd c (depsOf d) with
      | error e => simp [hrdres] at h
      | ok p =>
        obtain ⟨vs, c1⟩ := p
        have hmono := hrd c (depsOf d) vs c1 hrdres
        simp only [hrdres] at h
        split at h <;>
        · simp only [Except.ok.injEq, Prod.mk.injEq] at h
          obtain ⟨hv, hc⟩ := h
          subst hc
          refine ⟨by simp [hmono.1], by simp; omega⟩

lemma createInstance_pres (rd : DIContainer → List Nat → Except ResolveError (List Nat × DIContainer))
    (c : DIContainer) (token : Nat) (d : ServiceDescriptor) (v : Nat) (c₂ : DIContainer)
    (hrd : ∀ c₀ ds vs c₁, rd c₀ ds = Except.ok (vs, c₁) →
      c₁.services = c₀.services ∧ c₀.nextId ≤ c₁.nextId)
    (h : createInstance rd c token d = Except.ok (v, c₂)) :
    c₂.services = c.services ∧ c.nextId ≤ c₂.nextId := by
  unfold createInstance at h
  split at h
  · simp only [Except.ok.injEq, Prod.mk.injEq] at h
    obtain ⟨hv, hc⟩ := h
    subst hc
    simp
  · exact createFresh_pres rd c token d v c₂ hrd h

lemma resolveMany_pres (step : DIContainer → Nat → Except ResolveError (Nat × DIContainer))
    (hstep : ∀ c t v c', step c t = Except.ok (v, c') →
      c'.services = c.services ∧ c.nextId ≤ c'.nextId) :
    ∀ (ds : List Nat) (c : DIContainer) (vs : List Nat) (c' : DIContainer),
      resolveMany step c ds = Except.ok (vs, c') →
      c'.services = c.services ∧ c.nextId ≤ c'.nextId := by
  intro ds
  induction ds with
  | nil =>
    intro c vs c' h
    simp only [resolveMany, Except.ok.injEq, Prod.mk.injEq] at h
    obtain ⟨-, hc⟩ := h
    subst hc
    simp
  | cons t ts ih =>
    intro c vs c' h
    simp only [resolveMany] at h
    cases h1 : step c t with
    | error e => simp [h1] at h
    | ok p =>
      obtain ⟨v1, c1⟩ := p
      simp only [h1] at h
      cases h2 : resolveMany step c1 ts with
      | error e => simp [h2] at h
      | ok q =>
        obtain ⟨vs2, c2⟩ := q
        simp only [h2, Except.ok.injEq, Prod.mk.injEq] at h
        obtain ⟨-, hc⟩ := h
        subst hc
        have ha := hstep c t v1 c1 h1
        have hb := ih c1 vs2 c2 h2
        exact ⟨hb.1.trans ha.1, ha.2.trans hb.2⟩

lemma resolveFuel_pres :
    ∀ (fuel : Nat) (c : DIContainer) (token v : Nat) (c' : DIContainer),
      resolveFuel fuel c token = Except.ok (v, c') →
      c'.services = c.services ∧ c.nextId ≤ c'.nextId := by
  intro fuel
  induction fuel with
  | zero => intro c token v c' h; simp [resolveFuel] at h
  | succ fuel ih =>
    intro c token v c' h
    simp only [resolveFuel] at h
    cases hd : c.services.lookup token with
    | none => simp [hd] at h
    | some d =>
      simp only [hd] at h
      exact createInstance_pres _ c token d v c'
        (fun c₀ ds vs c₁ hm =>
          resolveMany_pres (fun c2 t => resolveFuel fuel c2 t)
            (fun ca t va ca' hh => ih ca t va ca' hh) ds c₀ vs c₁ hm) h

lemma createFresh_singleton_cached
    (rd : DIContainer → List Nat → Except ResolveError (List Nat × DIContainer))
    (c : DIContainer) (token : Nat) (d : ServiceDescriptor) (v : Nat) (c₂ : DIContainer)
    (hl : d.lifecycle = Lifecycle.singleton)
    (h : createFresh rd c token d = Except.ok (v, c₂)) :
    c₂.singletons.lookup token = some v := by
  cases hi : d.instVal with
  | some v0 =>
    simp [createFresh, hi, hl] at h
    obtain ⟨hv, hc⟩ := h
    subst hc
    simp_all [List.lookup]
  | none =>
    simp only [createFresh, hi] at h
    cases hp : (d.factory || d.ctor) with
    | false => simp [hp] at h
    | true =>
      simp only [hp, if_true] at h
      cases hrdres : rd c (depsOf d) with
      | error e => simp [hrdres] at h
      | ok p =>
        obtain ⟨vs, c1⟩ := p
        simp only [hrdres] at h
        simp [hl] at h
        obtain ⟨hv, hc⟩ := h
        subst hc
        simp_all [List.lookup]

lemma createInstance_singleton_cached
    (rd : DIContainer → List Nat → Except ResolveError (List Nat × DIContainer))
    (c : DIContainer) (token : Nat) (d : ServiceDescriptor) (v : Nat) (c₂ : DIContainer)
    (hl : d.lifecycle = Lifecycle.singleton)
    (h : createInstance rd c token d = Except.ok (v, c₂)) :
    c₂.singletons.lookup token = some v := by
  unfold createInstance at h
  split at h
  next v0 hcache =>
    simp only [Except.ok.injEq, Prod.mk.injEq] at h
    obtain ⟨hv, hc⟩ := h
    subst hv
    subst hc
    exact hcache
  next =>
    exact createFresh_singleton_cached rd c token d v c₂ hl h

lemma createInstance_cache_hit
    (rd : DIContainer → List Nat → Except ResolveError (List Nat × DIContainer))
    (c : DIContainer) (token : Nat) (d : ServiceDescriptor) (v : Nat)
    (hl : d.lifecycle = Lifecycle.singleton)
    (hv : c.singletons.lookup token = some v) :
    createInstance rd c token d = Except.ok (v, c) := by
  unfold createInstance
  rw [hl, hv]

lemma createInstance_transient_fresh
    (rd : DIContainer → List Nat → Except ResolveError (List Nat × DIContainer))
    (c : DIContainer) (token : Nat) (d : ServiceDescriptor) (v : Nat) (c₂ : DIContainer)
    (hl : d.lifecycle = Lifecycle.transient) (hi : d.instVal = none)
    (hp : (d.factory || d.ctor) = true)
    (hrd : ∀ c₀ ds vs c₁, rd c₀ ds = Except.ok (vs, c₁) → c₀.nextId ≤ c₁.nextId)
    (h : createInstance rd c token d = Except.ok (v, c₂)) :
    c.nextId ≤ v ∧ v < c₂.nextId := by
  unfold createInstance at h
  rw [hl] at h
  simp only [createFresh, hi, hp, if_true] at h
  cases hrdres : rd c (depsOf d) with
  | error e => simp [hrdres] at h
  | ok p =>
    obtain ⟨vs, c1⟩ := p
    have hmono := hrd c (depsOf d) vs c1 hrdres
    simp only [hrdres] at h
    simp [hl] at h
    obtain ⟨hv, hc⟩ := h
    subst hc
    simp
    omega

/-- Claim C9: a token registered with singleton lifecycle resolves to the
identical instance on every later `resolve` (the instance is cached in
`singletons`: a second resolve returns the same allocation with the container
untouched); a token registered with transient lifecycle (no stored instance,
a factory or constructor provider) yields a distinct fresh instance on every
resolve. -/
theorem di_lifecycle_identity :
    (∀ (c : DIContainer) (token : Nat) (d : ServiceDescriptor) (f g v : Nat)
        (c₁ : DIContainer),
      c.services.lookup token = some d → d.lifecycle = Lifecycle.singleton →
      resolveFuel (Nat.succ f) c token = Except.ok (v, c₁) →
      resolveFuel (Nat.succ g) c₁ token = Except.ok (v, c₁))
    ∧ (∀ (c : DIContainer) (token : Nat) (d : ServiceDescriptor) (f g v₁ v₂ : Nat)
        (c₁ c₂ : DIContainer),
      c.services.lookup token = some d → d.lifecycle = Lifecycle.transient →
      d.instVal = none → (d.factory || d.ctor) = true →
      resolveFuel (Nat.succ f) c token = Except.ok (v₁, c₁) →
      resolveFuel (Nat.succ g) c₁ token = Except.ok (v₂, c₂) →
      v₁ ≠ v₂) := by
  constructor
  · intro c token d f g v c₁ hd hl h1
    have hpres := resolveFuel_pres (Nat.succ f) c token v c₁ h1
    simp only [resolveFuel] at h1 ⊢
    rw [hpres.1, hd]
    rw [hd] at h1
    have hcached := createInstance_singleton_cached _ c token d v c₁ hl h1
    exact createInstance_cache_hit _ c₁ token d v hl hcached
  · intro c token d f g v₁ v₂ c₁ c₂ hd hl hi hp h1 h2
    have hpres := resolveFuel_pres (Nat.succ f) c token v₁ c₁ h1
    simp only [resolveFuel] at h1 h2
    rw [hd] at h1
    rw [hpres.1, hd] at h2
    have hrd1 : ∀ c₀ ds vs cx, resolveMany (fun c2 t => resolveFuel f c2 t) c₀ ds
        = Except.ok (vs, cx) → c₀.nextId ≤ cx.nextId := fun c₀ ds vs cx hm =>
      (resolveMany_pres _ (fun ca t va ca' hh => resolveFuel_pres f ca t va ca' hh)
        ds c₀ vs cx hm).2
    have hrd2 : ∀ c₀ ds vs cx, resolveMany (fun c2 t => resolveFuel g c2 t) c₀ ds
        = Except.ok (vs, cx) → c₀.nextId ≤ cx.nextId := fun c₀ ds vs cx hm =>
      (resolveMany_pres _ (fun ca t va ca' hh => resolveFuel_pres g ca t va ca' hh)
        ds c₀ vs cx hm).2
    have ha := createInstance_transient_fresh _ c token d v₁ c₁ hl hi hp hrd1 h1
    have hb := createInstance_transient_fresh _ c₁ token d v₂ c₂ hl hi hp hrd2 h2
    omega

/-- Closed witness for `di_lifecycle_identity`: in `wContainer` token 0 is a
singleton and token 1 a transient; the singleton resolves twice to allocation
0 with the container unchanged, the transient resolves to allocations 0 and
then 1. -/
theorem di_lifecycle_identity_witness :
    (wContainer.services.lookup 0
        = some { lifecycle := Lifecycle.singleton, ctor := true, dependencies := some [] }
      ∧ resolveFuel 1 wContainer 0 = Except.ok (0, wContainerS1)
      ∧ resolveFuel 1 wContainerS1 0 = Except.ok (0, wContainerS1))
    ∧ (resolveFuel 1 wContainer 1 = Except.ok (0, wContainerT1)
      ∧ resolveFuel 1 wContainerT1 1 = Except.ok (1, wContainerT2)
      ∧ (0 : Nat) ≠ 1) :=
  ⟨⟨rfl, rfl,
    di_lifecycle_identity.1 wContainer 0
      { lifecycle := Lifecycle.singleton, ctor := true, dependencies := some [] }
      0 0 0 wContainerS1 rfl rfl rfl⟩,
   rfl, rfl,
    di_lifecycle_identity.2 wContainer 1
      { lifecycle := Lifecycle.transient, ctor := true, dependencies := some [] }
      0 0 0 1 wContainerT1 wContainerT2 rfl rfl rfl rfl rfl rfl⟩

/-- Claim C3: the container performs no cycle detection — resolving a token
whose constructor dependency graph is cyclic never terminates. At every
finite recursion depth the resolution is still running (`outOfFuel`), for
both tokens of the cycle; it never surfaces an error identifying the cycle
(faithfully to the source, whose recursion
`resolve → resolveDependencies → resolve` has no cycle check at all). -/
theorem di_cyclic_resolution_diverges :
    ∀ fuel : Nat,
      resolveFuel fuel cyclicContainer 0 = Except.error ResolveError.outOfFuel
      ∧ resolveFuel fuel cyclicContainer 1 = Except.error ResolveError.outOfFuel := by
  intro fuel
  induction fuel with
  | zero => exact ⟨rfl, rfl⟩
  | succ fuel ih =>
    obtain ⟨ih0, ih1⟩ := ih
    simp only [cyclicContainer, registerTransient, register] at ih0 ih1 ⊢
    constructor
    · simp [resolveFuel, createInstance, createFresh, depsOf, resolveMany,
        List.lookup, ih1]
    · simp [resolveFuel, createInstance, createFresh, depsOf, resolveMany,
        List.lookup, ih0]


/-! ### EventBus claim -/

/-- `publishSync` never rejects: `Promise.allSettled` converts every handler
rejection into a fulfilled settlement, so the `catch` around
`await this.publishSync(item.event)` in `processQueue` — and with it the
entire retry path (`handleEventError`, front-of-queue reinsertion, backoff)
— is unreachable. -/
lemma publishSync_never_rejects (beh : Nat → Nat → List Bool) (attempt e : Nat) :
    publishSync beh attempt e = Except.ok () := rfl

/-- Claim C1, evaluated on the claimed scenario: events `[A, B]` (= `[0, 1]`)
are queued and drained, where A's only handler throws on A's first delivery.
A's delivery attempt fails, yet A is **not** re-enqueued at the front and B
is delivered immediately afterwards: the final trace is `[0, 1]`, A was
delivered exactly once (with its handler throwing, `behC1 0 0 = [false]`),
and the queue drained without any retry — contradicting the claimed
front-of-queue retry with B delivered only after A's successful redelivery. -/
theorem eventBus_no_retry_eval :
    processQueue behC1 5 { queue := [⟨0, 0⟩, ⟨1, 0⟩], trace := [] }
      = { queue := [], trace := [0, 1] }
    ∧ behC1 0 0 = [false]
    ∧ deliveryCount [0, 1] 0 = 1 :=
  ⟨rfl, rfl, rfl⟩

/-! ### BaseApiClient claim -/

/-- Once the response interceptor has normalized a failure into an
`ApiError`, the object the retry loop catches has no `response` member, so
the default `retryCondition` is `true` for **every** failure — including
4xx statuses. -/
lemma retryCondition_after_transform (raw : JsErrorView) :
    retryCondition (transformError raw).view = true := rfl

/-- Claim C2, evaluated: a request failing with HTTP 400 under the default
`retries = 3` invokes the underlying operation 4 times — the 4xx failure IS
retried, because `retryCondition` never sees `error.response` (the
interceptor already replaced the axios error by the normalized `ApiError`) —
and the error finally surfaced is the double-transformed one: code
`UNKNOWN_ERROR`, no status, instead of the normalized 400 error. -/
theorem baseApi_400_retried_eval :
    executeWithRetry op400 defaultRetries
      = (Except.error
          { message := "Bad Request", status := none, code := some "UNKNOWN_ERROR" }, 4) :=
  rfl

/-! ### MetalPriceApiClient claims -/

/-- Claim C6: starting from a fresh client, a successful
`getCurrentPrice(m)` at `t1` issues an HTTP call and caches; a second call
within `cacheTimeout` of `t1` returns the cached price with **no** HTTP call
and the client — cache, circuit breaker, rate-limit state — left completely
untouched (so in total exactly one underlying HTTP call was issued); a call
after `cacheTimeout` has elapsed issues a new HTTP call, whatever its
outcome. -/
theorem metalPrice_cache_freshness (m : String) (p : MetalPrice) (t1 t2 t3 : Nat)
    (f2 f3 : FetchOutcome MetalPrice)
    (h12 : t2 - t1 ≤ cacheTimeout) (h13 : cacheTimeout < t3 - t1) :
    (getCurrentPrice mpInit m t1 (FetchOutcome.ok (some p))).price = some p
    ∧ (getCurrentPrice mpInit m t1 (FetchOutcome.ok (some p))).httpCalled = true
    ∧ getCurrentPrice (getCurrentPrice mpInit m t1 (FetchOutcome.ok (some p))).client m t2 f2
      = { price := some p
          client := (getCurrentPrice mpInit m t1 (FetchOutcome.ok (some p))).client
          httpCalled := false }
    ∧ (getCurrentPrice (getCurrentPrice mpInit m t1 (FetchOutcome.ok (some p))).client
        m t3 f3).httpCalled = true := by
  have h1 : getCurrentPrice mpInit m t1 (FetchOutcome.ok (some p)) =
      { price := some p
        client :=
          { cache := [(toLowerCase m, p, t1)]
            breaker :=
              { config := mpConfig, state := CBState.closed, failureCount := 0
                successCount := 1, totalRequests := 1, lastFailureTime := none
                nextRetryTime := none
                monitoringWindow := addToMonitoringWindow mpConfig t1 true [] }
            lastRequestTime := t1 }
        httpCalled := true } := by
    simp [getCurrentPrice, getCachedPrice, mpInit, CircuitBreaker.execute,
      executeBody, onSuccess, recordSuccess, closeIfHalfOpen, mkCircuitBreaker,
      fetchExc, cachePrice, List.lookup]
  have hfresh : ¬ (cacheTimeout < t2 - t1) := by omega
  rw [h1]
  refine ⟨rfl, rfl, ?_, ?_⟩
  · simp [getCurrentPrice, getCachedPrice, List.lookup, hfresh]
  · cases f3 <;>
      simp [getCurrentPrice, getCachedPrice, List.lookup, h13, CircuitBreaker.execute,
        executeBody, fetchExc]

/-- Closed witness for `metalPrice_cache_freshness`: gold fetched at `t = 0`,
re-read at `t = 1000` (fresh) and at `t = 4000000` (expired, 1 h =
3600000 ms). -/
theorem metalPrice_cache_freshness_witness :
    ((1000 : Nat) - 0 ≤ cacheTimeout ∧ cacheTimeout < (4000000 : Nat) - 0)
    ∧ ((getCurrentPrice mpInit "gold" 0
          (FetchOutcome.ok (some ⟨"gold", 2000, 64, "USD", 0⟩))).price
        = some ⟨"gold", 2000, 64, "USD", 0⟩
      ∧ (getCurrentPrice mpInit "gold" 0
          (FetchOutcome.ok (some ⟨"gold", 2000, 64, "USD", 0⟩))).httpCalled = true
      ∧ getCurrentPrice
          (getCurrentPrice mpInit "gold" 0
            (FetchOutcome.ok (some ⟨"gold", 2000, 64, "USD", 0⟩))).client
          "gold" 1000 FetchOutcome.thrown
        = { price := some ⟨"gold", 2000, 64, "USD", 0⟩
            client := (getCurrentPrice mpInit "gold" 0
              (FetchOutcome.ok (some ⟨"gold", 2000, 64, "USD", 0⟩))).client
            httpCalled := false }
      ∧ (getCurrentPrice
          (getCurrentPrice mpInit "gold" 0
            (FetchOutcome.ok (some ⟨"gold", 2000, 64, "USD", 0⟩))).client
          "gold" 4000000 FetchOutcome.thrown).httpCalled = true) :=
  ⟨⟨by decide, by decide⟩,
    metalPrice_cache_freshness "gold" ⟨"gold", 2000, 64, "USD", 0⟩ 0 1000 4000000
      FetchOutcome.thrown FetchOutcome.thrown (by decide) (by decide)⟩

/-- Claim C7: when the fresh-cache check misses and the breaker-protected
fetch fails — the inner fetch threw, or the open breaker rejected the call
without running it — `getCurrentPrice` returns exactly the stale cache
lookup (`includeExpired = true`): the stale entry's data when one exists
(however old), `null` when none does. `getCurrentPrice` is a total function
of the model, so no such call throws. -/
theorem metalPrice_stale_fallback (cl : MetalPriceApiClient) (m : String) (now : Nat)
    (fetch : FetchOutcome MetalPrice)
    (hmiss : getCachedPrice cl (toLowerCase m) now false = none)
    (hfail : (CircuitBreaker.execute cl.breaker now (fetchExc fetch)).1
        = (ExecResult.fnErr : ExecResult (Option MetalPrice))
      ∨ (CircuitBreaker.execute cl.breaker now (fetchExc fetch)).1
        = (ExecResult.rejected : ExecResult (Option MetalPrice))) :
    (getCurrentPrice cl m now fetch).price = getCachedPrice cl (toLowerCase m) now true := by
  rcases hexec : CircuitBreaker.execute cl.breaker now (fetchExc fetch) with ⟨r, br⟩
  rw [hexec] at hfail
  simp only at hfail
  rcases hfail with h | h <;>
  · subst h
    simp only [getCurrentPrice, hmiss, hexec]
    simp [getCachedPrice]

/-- Closed witness for `metalPrice_stale_fallback`: an expired gold entry and
an open breaker far from its cooldown — even a fetch that would have
succeeded is rejected, and the stale price is returned. -/
theorem metalPrice_stale_fallback_witness :
    getCachedPrice mpWClient (toLowerCase "gold") 4000000 false = none
    ∧ ((CircuitBreaker.execute mpWClient.breaker 4000000
          (fetchExc (FetchOutcome.ok (some mpWPrice)))).1
        = (ExecResult.fnErr : ExecResult (Option MetalPrice))
      ∨ (CircuitBreaker.execute mpWClient.breaker 4000000
          (fetchExc (FetchOutcome.ok (some mpWPrice)))).1
        = (ExecResult.rejected : ExecResult (Option MetalPrice)))
    ∧ ((getCurrentPrice mpWClient "gold" 4000000 (FetchOutcome.ok (some mpWPrice))).price
        = getCachedPrice mpWClient (toLowerCase "gold") 4000000 true
      ∧ getCachedPrice mpWClient (toLowerCase "gold") 4000000 true = some mpWPrice) :=
  ⟨by decide, Or.inr (by decide),
    metalPrice_stale_fallback mpWClient "gold" 4000000 (FetchOutcome.ok (some mpWPrice))
      (by decide) (Or.inr (by decide)),
    by decide⟩

/-! ### ExchangeRateApiClient claim -/

/-- Claim C10: `convertCurrency(amount, c, c)` short-circuits on the
same-currency check: it returns `{convertedAmount: amount, rate: 1,
provider: 'same-currency'}` with the client — cache and circuit breaker —
completely untouched and no HTTP call, whatever the fetch oracle would have
done (even when no exchange rate for `c` is otherwise obtainable). -/
theorem exchangeRate_same_currency_shortcut (cl : ExchangeRateApiClient) (amount : ℚ)
    (c : String) (now : Nat) (fetch : FetchOutcome ExchangeRate) :
    convertCurrency cl amount c c now fetch
      = { conversion := some (amount,
            { fromCurrency := c, toCurrency := c, rate := 1
              lastUpdated := now, provider := "same-currency" })
          client := cl
          httpCalled := false } := by
  simp [convertCurrency]

end Ciaociao
